import Mathlib

/-!
Verification of the torwin repository's menu controller and action registry.

The repository has two variants of the same tool, `torlinux.py` and
`torwin.py`.  Both drive a curses menu loop (`main_menu`) over the same
six-entry menu, tracking a selection index `current_row`, and dispatch to a
registry of five actions.  The definitions below are a shallow embedding of
that code: the loop body becomes a step function on the selection index, the
full loop a fold over the list of key codes returned by `stdscr.getch()`, and
each action a function from the observable behaviour of its external
collaborators (process exit codes, captured stdout, file-write success) to
the console output it produces and the error it may raise.
-/

namespace Torwin

/-- ncurses key code for the up-arrow key, `curses.KEY_UP`. -/
def KEY_UP : Int := 259

/-- ncurses key code for the down-arrow key, `curses.KEY_DOWN`. -/
def KEY_DOWN : Int := 258

/-- ncurses key code for the enter key on the keypad, `curses.KEY_ENTER`. -/
def KEY_ENTER : Int := 343

/-- The six menu labels of `main_menu` (torlinux.py lines 54-61; the Windows
variant differs only in the wording of the first two labels). -/
def menu : List String :=
  [ "Install Tor and Proxychains"
  , "Configure Proxychains"
  , "Start Tor"
  , "Stop Tor"
  , "Verify Tor Connection"
  , "Exit" ]

/-- The five registry actions bound to menu entries 0-4.  In torlinux.py these
are `install_packages`, `configure_proxychains`, `start_tor`, `stop_tor`,
`verify_tor`; in torwin.py they are `install_tor`, `configure_proxifier`,
`start_tor`, `stop_tor`, `verify_tor`. -/
inductive MenuAction where
  | install
  | configure
  | start
  | stop
  | verify
  deriving DecidableEq, Repr

/-- The `if current_row == 0 ... elif current_row == 4` dispatch chain inside
the enter branch of `main_menu` (torlinux.py lines 85-94, torwin.py lines
108-117).  The loop keeps `current_row` in `[0, 5]` and the enter branch only
reaches this chain when `current_row` is not 5, so the `none` fallthrough is
unreachable in a run, exactly as in the source. -/
def actionDispatch (current_row : Int) : Option MenuAction :=
  if current_row = 0 then some .install
  else if current_row = 1 then some .configure
  else if current_row = 2 then some .start
  else if current_row = 3 then some .stop
  else if current_row = 4 then some .verify
  else none

/-- Result of one iteration of the `while True` loop: either the loop
continues with a new `current_row`, having invoked at most one action, or the
`break` on the Exit entry was reached. -/
inductive StepResult where
  | cont (row : Int) (invoked : Option MenuAction)
  | exited
  deriving DecidableEq, Repr

/-- One iteration of the key-handling part of `main_menu`'s loop
(torlinux.py lines 76-94, torwin.py lines 99-117): the
`if key == curses.KEY_UP and current_row > 0` / `elif ... KEY_DOWN ...` /
`elif key == curses.KEY_ENTER or key in [10, 13]` chain.  Rendering and the
fixed 1-second sleep have no effect on the state and are not modelled. -/
def menuStep (current_row : Int) (key : Int) : StepResult :=
  if key = KEY_UP ∧ current_row > 0 then
    .cont (current_row - 1) none
  else if key = KEY_DOWN ∧ current_row < (menu.length : Int) - 1 then
    .cont (current_row + 1) none
  else if key = KEY_ENTER ∨ key = 10 ∨ key = 13 then
    if current_row = (menu.length : Int) - 1 then
      .exited
    else
      .cont current_row (actionDispatch current_row)
  else
    .cont current_row none

/-- Run the menu loop on a list of key codes, starting from `row`.  Returns
the final `current_row`, the list of actions invoked in order, and whether
the loop terminated through the `break` on the Exit entry.  Keys after the
`break` are never read, as in the source. -/
def menuRun : Int → List Int → Int × List MenuAction × Bool
  | row, [] => (row, [], false)
  | row, k :: ks =>
    match menuStep row k with
    | .exited => (row, [], true)
    | .cont r none => menuRun r ks
    | .cont r (some a) =>
      let rest := menuRun r ks
      (rest.1, a :: rest.2.1, rest.2.2)

/-- The successive values of `current_row` after each processed key (empty
once the loop has exited). -/
def menuTrace : Int → List Int → List Int
  | _, [] => []
  | row, k :: ks =>
    match menuStep row k with
    | .exited => []
    | .cont r _ => r :: menuTrace r ks

/-- One line of console output: `print(colored(text, color))` or a plain
`print(text)`. -/
inductive OutLine where
  | colored (text : String) (color : String)
  | plain (text : String)
  deriving DecidableEq, Repr

/-- Does the character list `hay` start with `needle`? -/
def charsStartWith : List Char → List Char → Bool
  | [], _ => true
  | _ :: _, [] => false
  | a :: as, b :: bs => a == b && charsStartWith as bs

/-- Does the character list `hay` contain `needle` as a contiguous run?
This is the semantics of Python's `needle in hay` on strings. -/
def charsContain (needle : List Char) : List Char → Bool
  | [] => charsStartWith needle []
  | c :: t => charsStartWith needle (c :: t) || charsContain needle t

/-- Python's `needle in hay` substring test on strings. -/
def strContains (hay needle : String) : Bool :=
  charsContain needle.data hay.data

/-- The confirmation sentence `verify_tor` looks for in the captured body
(torlinux.py line 43, torwin.py line 64). -/
def torPhrase : String := "Congratulations. This browser is configured to use Tor."

/-- The console output of `verify_tor` (torlinux.py lines 40-47, torwin.py
lines 61-68) as a function of the stdout captured from the curl subprocess:
a success line when the confirmation phrase occurs in the body, otherwise a
failure line followed by the captured body printed plainly. -/
def verify_tor (stdout : String) : List OutLine :=
  [.colored "Verifying Tor connection..." "yellow"] ++
    (if strContains stdout torPhrase then
      [.colored "Tor is successfully configured!" "green"]
    else
      [.colored "Tor configuration failed." "red", .plain stdout])

/-- A single file write: destination path and full content
(the `open(path, "w")` / `write` pair). -/
structure FileWrite where
  path : String
  content : String
  deriving DecidableEq, Repr

/-- The configuration template `proxychains_conf` of torlinux.py lines 16-24:
a Python triple-quoted literal beginning with a newline and ending with a
newline plus the four spaces of the closing line's indentation. -/
def proxychains_conf : String :=
  "\ndynamic_chain\nproxy_dns\ntcp_read_time_out 15000\ntcp_connect_time_out 8000\n\n[ProxyList]\nsocks5  127.0.0.1 9050\n    "

/-- The file write performed by `configure_proxychains` (torlinux.py lines
25-26): the template above, to /etc/proxychains4.conf. -/
def configure_proxychains : FileWrite :=
  { path := "/etc/proxychains4.conf", content := proxychains_conf }

/-- Error a Python action can raise: a CalledProcessError carrying the
child's exit status (from `subprocess.run(..., check=True)`), or an OSError
from a failed file write. -/
inductive ActErr where
  | processExit (code : Int)
  | writeFail
  deriving DecidableEq, Repr

/-- Model of `subprocess.run(argv, check=True)`: returns normally when the child
exits with status 0 and raises CalledProcessError with the status
otherwise. -/
def runChecked (exitCode : Int) : Except ActErr Unit :=
  if exitCode = 0 then .ok () else .error (.processExit exitCode)

/-- Model of `subprocess.run(argv)` without `check=True`: returns the completed
process whatever its exit status; it never raises. -/
def runUnchecked (exitCode : Int) : Except ActErr Int :=
  .ok exitCode

/-- Observable behaviour of the external collaborators of one action
invocation in the Linux variant: the exit statuses of the subprocesses the
actions spawn, whether the configuration file write succeeds, and the
stdout captured from the verification subprocess. -/
structure ExtEnv where
  aptUpdateExit : Int
  aptInstallExit : Int
  systemctlStartExit : Int
  systemctlStopExit : Int
  confWriteOk : Bool
  curlStdout : String

/-- Action `install_packages` (torlinux.py lines 8-12): two subprocess calls with
`check=True`; the second runs only when the first exited 0, and a non-zero
status raises out of the action. -/
def install_packages (env : ExtEnv) : Except ActErr Unit := do
  runChecked env.aptUpdateExit
  runChecked env.aptInstallExit

/-- The fallible part of `configure_proxychains` (torlinux.py lines 25-26):
the `open/write` pair raises OSError when the write cannot be performed,
otherwise the write of `proxychains_conf` completes. -/
def configure_proxychains_run (env : ExtEnv) : Except ActErr Unit :=
  if env.confWriteOk then .ok () else .error .writeFail

/-- Action `start_tor` (torlinux.py lines 29-33): one checked systemctl call, then
a fixed sleep. -/
def start_tor (env : ExtEnv) : Except ActErr Unit :=
  runChecked env.systemctlStartExit

/-- Action `stop_tor` (torlinux.py lines 35-38): one checked systemctl call. -/
def stop_tor (env : ExtEnv) : Except ActErr Unit :=
  runChecked env.systemctlStopExit

/-- The raising behaviour of `verify_tor` (torlinux.py lines 40-47): its
subprocess call has no `check=True`, so the action completes whatever the
exit status; the mismatch case only prints. -/
def verify_tor_run (_env : ExtEnv) : Except ActErr Unit :=
  .ok ()

/-- Dispatch from a menu action to the Linux variant's implementation. -/
def runAction (env : ExtEnv) : MenuAction → Except ActErr Unit
  | .install => install_packages env
  | .configure => configure_proxychains_run env
  | .start => start_tor env
  | .stop => stop_tor env
  | .verify => verify_tor_run env

/-- Exceptions observable from a run of torlinux.py's `main_menu`: the
UnboundLocalError CPython raises when a function local is read before any
assignment to it, and the exceptions an invoked action can raise
(CalledProcessError from a checked subprocess, OSError from the file
write). -/
inductive PyErr where
  | unboundLocalError (name : String)
  | calledProcessError (code : Int)
  | osError
  deriving DecidableEq, Repr

/-- View of an action exception as the exception `main_menu` sees. -/
def pyErrOf : ActErr → PyErr
  | .processExit c => .calledProcessError c
  | .writeFail => .osError

/-- Outcome of torlinux.py's `main_menu`: the loop either ran the supplied
keys (possibly breaking on the Exit entry), or an uncaught exception
propagated out of it — the function has no try/except anywhere, so a raise
ends the loop with the remaining keys never read.  `invoked` lists the
actions that were actually entered, in order. -/
inductive LinuxMenuOutcome where
  | finished (invoked : List MenuAction) (exited : Bool)
  | raisedErr (invoked : List MenuAction) (err : PyErr)
  deriving DecidableEq, Repr

/-- The loop of torlinux.py's `main_menu` (lines 63-96) with CPython's
scoping rules embedded.  `current_row` is assigned inside `main_menu`
(lines 77 and 79) and the function has no `global current_row` declaration
— only `main` (line 99) has one — so CPython compiles `current_row` as a
local of `main_menu` that starts every call unbound; the `Option Int` state
is that local, `none` when still unbound.  Each iteration first redraws the
menu, and the redraw reads the local at line 68 (`if idx == current_row:`),
raising UnboundLocalError while it is unbound — before `stdscr.getch()` at
line 74 is ever reached.  With the local bound, the iteration reads one key
and runs the `menuStep` chain, raising if a dispatched action raises. -/
def main_menu_torlinux (env : ExtEnv) : Option Int → List Int → LinuxMenuOutcome
  | none, _ => .raisedErr [] (.unboundLocalError "current_row")
  | some _, [] => .finished [] false
  | some row, k :: ks =>
    match menuStep row k with
    | .exited => .finished [] true
    | .cont r none => main_menu_torlinux env (some r) ks
    | .cont r (some a) =>
      match runAction env a with
      | .error e => .raisedErr [a] (pyErrOf e)
      | .ok _ =>
        match main_menu_torlinux env (some r) ks with
        | .finished as ex => .finished (a :: as) ex
        | .raisedErr as e => .raisedErr (a :: as) e

/-- Entry into `main_menu`'s loop as torlinux.py reaches it: the function
local `current_row` is unbound when the loop starts (the `current_row = 0`
at line 100 sets the distinct module-level global, not this local). -/
def run_torlinux_menu (env : ExtEnv) (keys : List Int) : LinuxMenuOutcome :=
  main_menu_torlinux env none keys

/-- An environment in which `sudo apt update` exits with status 1 and every
other collaborator behaves. -/
def envAptFail : ExtEnv :=
  { aptUpdateExit := 1, aptInstallExit := 0, systemctlStartExit := 0,
    systemctlStopExit := 0, confWriteOk := true, curlStdout := "" }

/-- An environment in which every external collaborator behaves. -/
def envAllOk : ExtEnv :=
  { aptUpdateExit := 0, aptInstallExit := 0, systemctlStartExit := 0,
    systemctlStopExit := 0, confWriteOk := true, curlStdout := "" }

/-- Action `stop_tor` of the Windows variant (torwin.py lines 50-52): taskkill is
run without `check=True`, then the success message is printed. -/
def stop_tor_win (taskkillExit : Int) : Except ActErr (List OutLine) :=
  match runUnchecked taskkillExit with
  | .error e => .error e
  | .ok _ => .ok [.colored "Tor stopped." "green"]

/-- Action `configure_proxifier` (torwin.py lines 54-59): a message, then
ProxifierCLI.exe run without `check=True`, then the success message. -/
def configure_proxifier (cliExit : Int) : Except ActErr (List OutLine) :=
  match runUnchecked cliExit with
  | .error e => .error e
  | .ok _ => .ok [.colored "Configuring Proxifier..." "yellow",
                  .colored "Proxifier configured." "green"]

/-- Action `install_proxifier` (torwin.py lines 36-41): download ProxifierSetup.exe
(the download itself is not an exit-status matter and is modelled as
completing), run it with `/silent` and no `check=True`, then print the
success message. -/
def install_proxifier (setupExit : Int) : Except ActErr (List OutLine) :=
  match runUnchecked setupExit with
  | .error e => .error e
  | .ok _ => .ok [.colored "Downloading Proxifier..." "yellow",
                  .colored "Installing Proxifier..." "yellow",
                  .colored "Proxifier installation complete." "green"]

/-- Split a character list on a separator character (the line or field
structure of the written file). -/
def splitOnChar (c : Char) : List Char → List (List Char)
  | [] => [[]]
  | a :: as =>
    match splitOnChar c as with
    | [] => if a == c then [[], []] else [[a]]
    | h :: t => if a == c then [] :: h :: t else (a :: h) :: t

/-- The whitespace-separated tokens of one line, as a proxychains parser
would read them. -/
def lineTokens (l : List Char) : List (List Char) :=
  (splitOnChar ' ' l).filter (fun t => !t.isEmpty)

end Torwin

namespace Torwin

theorem menuStep_row_bounds (row k : Int) (h0 : 0 ≤ row) (h5 : row ≤ 5) :
    ∀ r a, menuStep row k = .cont r a → 0 ≤ r ∧ r ≤ 5 := by
  intro r a hstep
  unfold menuStep at hstep
  split at hstep
  · rename_i hc
    cases hstep
    omega
  · split at hstep
    · rename_i hc
      simp only [menu, List.length] at hc
      cases hstep
      omega
    · split at hstep
      · split at hstep
        · cases hstep
        · cases hstep
          omega
      · cases hstep
        omega

theorem menuTrace_bounds (ks : List Int) (row : Int)
    (h0 : 0 ≤ row) (h5 : row ≤ 5) :
    ∀ r ∈ menuTrace row ks, 0 ≤ r ∧ r ≤ 5 := by
  induction ks generalizing row with
  | nil => intro r hr; simp [menuTrace] at hr
  | cons k ks ih =>
    intro r hr
    unfold menuTrace at hr
    rcases hstep : menuStep row k with _ | _
    · rename_i r' a
      rw [hstep] at hr
      simp only [List.mem_cons] at hr
      have hb := menuStep_row_bounds row k h0 h5 r' a hstep
      rcases hr with rfl | hr
      · exact hb
      · exact ih r' hb.1 hb.2 r hr
    · rw [hstep] at hr
      simp at hr

theorem menuRun_append (ks : List Int) (row : Int) (ls : List Int)
    (h : (menuRun row ks).2.2 = false) :
    menuRun row (ks ++ ls) =
      ((menuRun (menuRun row ks).1 ls).1,
       (menuRun row ks).2.1 ++ (menuRun (menuRun row ks).1 ls).2.1,
       (menuRun (menuRun row ks).1 ls).2.2) := by
  induction ks generalizing row with
  | nil => simp [menuRun]
  | cons k ks ih =>
    cases hstep : menuStep row k with
    | cont r a =>
      cases a with
      | none =>
        have h' : (menuRun r ks).2.2 = false := by
          simpa [menuRun, hstep] using h
        simp [menuRun, hstep, ih r, h']
      | some act =>
        have h' : (menuRun r ks).2.2 = false := by
          simpa [menuRun, hstep] using h
        simp [menuRun, hstep, ih r, h']
    | exited =>
      exfalso
      simp [menuRun, hstep] at h

theorem menuRun_append_exited (ks : List Int) (row : Int) (ls : List Int)
    (h : (menuRun row ks).2.2 = false) :
    (menuRun row (ks ++ ls)).2.2 = (menuRun (menuRun row ks).1 ls).2.2 := by
  rw [menuRun_append ks row ls h]

/-- C1: for every sequence of input events processed by the menu loop,
starting from the initial selection index 0, `current_row` always stays
within `[0, entryCount-1]` where `entryCount = menu.length = 6`: every value
it takes along the run is in range. -/
theorem menu_selection_always_in_range (ks : List Int) (r : Int)
    (hr : r ∈ menuTrace 0 ks) :
    0 ≤ r ∧ r ≤ (menu.length : Int) - 1 := by
  have h := menuTrace_bounds ks 0 (by omega) (by omega) r hr
  simpa [menu] using h

theorem menu_selection_always_in_range_witness :
    0 ≤ (1 : Int) ∧ (1 : Int) ≤ ((menu.length : Nat) : Int) - 1 :=
  menu_selection_always_in_range [KEY_DOWN] 1 (by decide)

/-- C2: whatever navigation history `ks` brought the loop (still running) to
the last menu entry (index `entryCount - 1`, the Exit entry), an enter key
(`curses.KEY_ENTER`, 10 or 13) terminates the loop. -/
theorem select_exit_terminates (ks : List Int) (k : Int)
    (hk : k = KEY_ENTER ∨ k = 10 ∨ k = 13)
    (hrun : (menuRun 0 ks).2.2 = false)
    (hrow : (menuRun 0 ks).1 = (menu.length : Int) - 1) :
    (menuRun 0 (ks ++ [k])).2.2 = true := by
  rw [menuRun_append_exited ks 0 [k] hrun, hrow]
  rcases hk with rfl | rfl | rfl <;> decide

theorem select_exit_terminates_witness :
    (menuRun 0 ([KEY_DOWN, KEY_DOWN, KEY_DOWN, KEY_DOWN, KEY_DOWN] ++ [13])).2.2 = true :=
  select_exit_terminates [KEY_DOWN, KEY_DOWN, KEY_DOWN, KEY_DOWN, KEY_DOWN] 13
    (Or.inr (Or.inr rfl)) (by decide) (by decide)

/-- C6: for every in-range selection index, an up-event moves the selection
to `max 0 (i - 1)`, a down-event to `min (entryCount - 1) (i + 1)`, and
neither event invokes any action or ends the loop. -/
theorem nav_up_down_transitions (i : Int) (h0 : 0 ≤ i)
    (h5 : i ≤ (menu.length : Int) - 1) :
    menuStep i KEY_UP = .cont (max 0 (i - 1)) none ∧
    menuStep i KEY_DOWN = .cont (min ((menu.length : Int) - 1) (i + 1)) none := by
  have h5' : i ≤ 5 := by simpa [menu] using h5
  interval_cases i <;> decide

theorem nav_up_down_transitions_witness :
    menuStep 0 KEY_UP = .cont (max 0 (0 - 1)) none ∧
    menuStep 0 KEY_DOWN = .cont (min (((menu.length : Nat) : Int) - 1) (0 + 1)) none :=
  nav_up_down_transitions 0 (by decide) (by decide)

/-- C7: a select event on any non-Exit entry (index 0 to entryCount-2)
invokes exactly the action bound to that entry (0 → install, 1 → configure,
2 → start, 3 → stop, 4 → verify), the loop continues, and the selection
index is unchanged. -/
theorem select_non_exit_invokes_bound_action (i : Int) (h0 : 0 ≤ i)
    (h4 : i ≤ (menu.length : Int) - 2) (k : Int)
    (hk : k = KEY_ENTER ∨ k = 10 ∨ k = 13) :
    menuStep i k =
      .cont i [MenuAction.install, .configure, .start, .stop, .verify][i.toNat]? := by
  have h4' : i ≤ 4 := by simpa [menu] using h4
  interval_cases i <;> rcases hk with rfl | rfl | rfl <;> decide

theorem select_non_exit_invokes_bound_action_witness :
    menuStep 1 10 =
      .cont 1 [MenuAction.install, .configure, .start, .stop, .verify][(1 : Int).toNat]? :=
  select_non_exit_invokes_bound_action 1 (by decide) (by decide) 10
    (Or.inr (Or.inl rfl))

/-- C8: from the initial state (index 0), the event sequence Down, Down, Up
leaves the selection at index 1 with no action invoked, and a following
enter event invokes exactly the entry-1 action (configure), once. -/
theorem scenario_down_down_up_enter :
    menuRun 0 [KEY_DOWN, KEY_DOWN, KEY_UP] = (1, [], false) ∧
    menuRun 0 [KEY_DOWN, KEY_DOWN, KEY_UP, 13] = (1, [.configure], false) := by
  decide

/-- C9: any key other than up, down and the three enter codes leaves the
selection unchanged (at any index), invokes no action and keeps the loop
running; likewise an up-event at index 0 and a down-event at the last
index leave the state unchanged. -/
theorem non_nav_keys_no_effect (k row : Int)
    (h1 : k ≠ KEY_UP) (h2 : k ≠ KEY_DOWN) (h3 : k ≠ KEY_ENTER)
    (h4 : k ≠ 10) (h5 : k ≠ 13) :
    menuStep row k = .cont row none ∧
    menuStep 0 KEY_UP = .cont 0 none ∧
    menuStep ((menu.length : Int) - 1) KEY_DOWN =
      .cont ((menu.length : Int) - 1) none := by
  refine ⟨?_, by decide, by decide⟩
  simp [menuStep, h1, h2, h3, h4, h5]

theorem non_nav_keys_no_effect_witness :
    menuStep 3 120 = .cont 3 none ∧
    menuStep 0 KEY_UP = .cont 0 none ∧
    menuStep (((menu.length : Nat) : Int) - 1) KEY_DOWN =
      .cont (((menu.length : Nat) : Int) - 1) none :=
  non_nav_keys_no_effect 120 3 (by decide) (by decide) (by decide) (by decide)
    (by decide)

theorem charsStartWith_iff (n : List Char) :
    ∀ h : List Char, charsStartWith n h = true ↔ ∃ t, h = n ++ t := by
  induction n with
  | nil => intro h; simp [charsStartWith]
  | cons a as ih =>
    intro h
    cases h with
    | nil => simp [charsStartWith]
    | cons b bs =>
      simp only [charsStartWith, Bool.and_eq_true, beq_iff_eq, ih,
        List.cons_append, List.cons.injEq]
      constructor
      · rintro ⟨rfl, t, rfl⟩
        exact ⟨t, rfl, rfl⟩
      · rintro ⟨t, rfl, rfl⟩
        exact ⟨rfl, t, rfl⟩

theorem charsContain_iff (n : List Char) :
    ∀ h : List Char, charsContain n h = true ↔ ∃ p t, h = p ++ n ++ t := by
  intro h
  induction h with
  | nil =>
    simp only [charsContain, charsStartWith_iff]
    constructor
    · rintro ⟨t, ht⟩
      exact ⟨[], t, by simpa using ht⟩
    · rintro ⟨p, t, hpt⟩
      obtain ⟨rfl, -⟩ := List.append_eq_nil.mp (List.append_eq_nil.mp hpt.symm).1
      exact ⟨t, by simpa using hpt⟩
  | cons c t ih =>
    simp only [charsContain, Bool.or_eq_true, charsStartWith_iff, ih]
    constructor
    · rintro (⟨s, hs⟩ | ⟨p, s, rfl⟩)
      · exact ⟨[], s, by simpa using hs⟩
      · exact ⟨c :: p, s, by simp⟩
    · rintro ⟨p, s, hp⟩
      cases p with
      | nil => exact Or.inl ⟨s, by simpa using hp⟩
      | cons x xs =>
        simp only [List.cons_append, List.cons.injEq] at hp
        exact Or.inr ⟨xs, s, hp.2⟩

/-- C4: verify_tor reports success exactly when the captured body contains
the exact confirmation phrase as a contiguous substring, and on any body
lacking the phrase it reports failure and additionally prints the original
captured body in full. -/
theorem verify_tor_reports (body : String) :
    (verify_tor body =
        [.colored "Verifying Tor connection..." "yellow",
         .colored "Tor is successfully configured!" "green"] ↔
      ∃ p t, body.data = p ++ torPhrase.data ++ t) ∧
    (verify_tor body =
        [.colored "Verifying Tor connection..." "yellow",
         .colored "Tor configuration failed." "red",
         .plain body] ↔
      ¬ ∃ p t, body.data = p ++ torPhrase.data ++ t) := by
  have hiff : strContains body torPhrase = true ↔
      ∃ p t, body.data = p ++ torPhrase.data ++ t :=
    charsContain_iff torPhrase.data body.data
  cases hc : strContains body torPhrase with
  | true =>
    have hex := hiff.mp hc
    have hv : verify_tor body =
        [.colored "Verifying Tor connection..." "yellow",
         .colored "Tor is successfully configured!" "green"] := by
      simp [verify_tor, hc]
    constructor
    · exact ⟨fun _ => hex, fun _ => hv⟩
    · constructor
      · intro hbad
        rw [hv] at hbad
        have hlen := congrArg List.length hbad
        simp at hlen
      · intro hn
        exact absurd hex hn
  | false =>
    have hnex : ¬ ∃ p t, body.data = p ++ torPhrase.data ++ t := by
      intro hx
      rw [hiff.mpr hx] at hc
      cases hc
    have hv : verify_tor body =
        [.colored "Verifying Tor connection..." "yellow",
         .colored "Tor configuration failed." "red",
         .plain body] := by
      simp [verify_tor, hc]
    constructor
    · constructor
      · intro hbad
        rw [hv] at hbad
        have hlen := congrArg List.length hbad
        simp at hlen
      · intro hx
        exact absurd hx hnex
    · exact ⟨fun _ => hnex, fun _ => hv⟩

/-- C5: the content configure_proxychains writes to /etc/proxychains4.conf
equals the fixed template; its lines comprise the chain mode, the
DNS-via-proxy flag, the timeouts 15000 and 8000, and exactly one line whose
whitespace tokens form the proxy entry socks5 / 127.0.0.1 / 9050; after the
ProxyList header that entry is the only line with any token at all. -/
theorem configure_proxychains_writes_template :
    configure_proxychains.path = "/etc/proxychains4.conf" ∧
    configure_proxychains.content = proxychains_conf ∧
    "dynamic_chain".data ∈ splitOnChar '\n' proxychains_conf.data ∧
    "proxy_dns".data ∈ splitOnChar '\n' proxychains_conf.data ∧
    "tcp_read_time_out 15000".data ∈ splitOnChar '\n' proxychains_conf.data ∧
    "tcp_connect_time_out 8000".data ∈ splitOnChar '\n' proxychains_conf.data ∧
    ((splitOnChar '\n' proxychains_conf.data).filter
        (fun l => lineTokens l ==
          ["socks5".data, "127.0.0.1".data, "9050".data])).length = 1 ∧
    (((splitOnChar '\n' proxychains_conf.data).dropWhile
        (fun l => !(l == "[ProxyList]".data))).drop 1).filter
        (fun l => !(lineTokens l).isEmpty) =
      ["socks5  127.0.0.1 9050".data] := by
  decide

/-- C3 as stated is false on the real code: torlinux.py's `main_menu` reads
its unassigned function local `current_row` during the first redraw and
raises UnboundLocalError before `stdscr.getch()` is ever reached.  With
apt update set to exit 1 and the events Enter-then-Down supplied — where
the claim predicts the Install failure is confined to the action while the
loop survives, redraws and processes the Down — the loop instead raises at
once: no key is read and no action is invoked.  The same happens with no
events at all, and with every collaborator behaving. -/
theorem torlinux_menu_raises_before_any_input :
    run_torlinux_menu envAptFail [13, KEY_DOWN] =
      .raisedErr [] (.unboundLocalError "current_row") ∧
    run_torlinux_menu envAptFail [] =
      .raisedErr [] (.unboundLocalError "current_row") ∧
    run_torlinux_menu envAllOk [KEY_DOWN, KEY_DOWN, 13] =
      .raisedErr [] (.unboundLocalError "current_row") :=
  ⟨rfl, rfl, rfl⟩

/-- C3 corrected: each registry action, invoked directly, propagates a
failure of a required external step as an abrupt failure that terminates
the action (a failing first apt call keeps the second from running, a
failing file write aborts the configure action), but the Linux menu loop
never reaches any of them: for every environment and every key sequence,
`main_menu` raises UnboundLocalError on its unassigned local `current_row`
during the first redraw, before any input event is accepted and with no
action invoked — the loop does not survive, redraw, or continue. -/
theorem action_failures_fatal_but_torlinux_loop_never_dispatches
    (env : ExtEnv) (ks : List Int) :
    (env.aptUpdateExit ≠ 0 →
      install_packages env = .error (.processExit env.aptUpdateExit)) ∧
    (env.aptUpdateExit = 0 → env.aptInstallExit ≠ 0 →
      install_packages env = .error (.processExit env.aptInstallExit)) ∧
    (env.confWriteOk = false →
      configure_proxychains_run env = .error .writeFail) ∧
    (env.systemctlStartExit ≠ 0 →
      start_tor env = .error (.processExit env.systemctlStartExit)) ∧
    (env.systemctlStopExit ≠ 0 →
      stop_tor env = .error (.processExit env.systemctlStopExit)) ∧
    run_torlinux_menu env ks =
      .raisedErr [] (.unboundLocalError "current_row") := by
  refine ⟨?_, ?_, ?_, ?_, ?_, ?_⟩
  · intro h
    simp [install_packages, runChecked, h, Bind.bind, Except.bind]
  · intro h0 h1
    simp [install_packages, runChecked, h0, h1, Bind.bind, Except.bind]
  · intro h
    simp [configure_proxychains_run, h]
  · intro h
    simp [start_tor, runChecked, h]
  · intro h
    simp [stop_tor, runChecked, h]
  · cases ks <;> rfl

/-- C10: the Windows variant's stop, configure and Proxifier-install steps
run their subprocesses without `check=True`, so whatever exit status
taskkill, ProxifierCLI.exe or ProxifierSetup.exe returns — zero or not —
each action completes normally with its success message and never
propagates a failure. -/
theorem windows_actions_report_success_unconditionally (e1 e2 e3 : Int) :
    stop_tor_win e1 = .ok [.colored "Tor stopped." "green"] ∧
    configure_proxifier e2 =
      .ok [.colored "Configuring Proxifier..." "yellow",
           .colored "Proxifier configured." "green"] ∧
    install_proxifier e3 =
      .ok [.colored "Downloading Proxifier..." "yellow",
           .colored "Installing Proxifier..." "yellow",
           .colored "Proxifier installation complete." "green"] :=
  ⟨rfl, rfl, rfl⟩

end Torwin
